import Mathlib

/-!
Verification of the permission resolution engine of the discordeno
repository (src/util/permissions.ts together with the channel and role
structures).  The TypeScript functions are shallowly embedded: BigInt
bitmasks become Nat with the bitwise operations `|||`, `&&&` and
`Nat.ldiff` (which is `x & ~y` on non-negative big integers), the cache
lookups become association-list lookups over an explicit snapshot, and
thrown errors become the `Except` error monad.  Permission-bit strings
returned by the engine are represented by their numeric value; the
sentinel string "8" is the value 8 (decimal printing of big integers is
injective, so the string test `bits === "8"` is the test `bits = 8`).
One control-flow fact of the source is modelled faithfully rather than
repaired: computeChannelOverwrites calls the async computeBasePermissions
without await inside BigInt(), and BigInt applied to the returned Promise
throws unconditionally, so for every guild channel the function faults at
that line; the overwrite tiers that follow are embedded as standalone
definitions of that unreachable code.
-/

namespace Engine

deriving instance DecidableEq for Except

/-- Modelled from the spec: the Permissions capability catalog lives in
src/types, which is not among the provided sources.  The spec describes an
enumeration of named flags, each mapped to a distinct bit position; the
numeric values follow the platform catalog, with ADMINISTRATOR at bit 3
(value 8), as forced by the sentinel "8" used by the permission module. -/
inductive Permission where
  | CREATE_INSTANT_INVITE
  | KICK_MEMBERS
  | BAN_MEMBERS
  | ADMINISTRATOR
  | MANAGE_CHANNELS
  | MANAGE_GUILD
  | ADD_REACTIONS
  | VIEW_CHANNEL
  | SEND_MESSAGES
deriving DecidableEq

/-- Modelled from the spec: the bit value of each capability flag
(`Permissions[permission]` in the source). -/
def Permission.bits : Permission → Nat
  | .CREATE_INSTANT_INVITE => 1
  | .KICK_MEMBERS => 2
  | .BAN_MEMBERS => 4
  | .ADMINISTRATOR => 8
  | .MANAGE_CHANNELS => 16
  | .MANAGE_GUILD => 32
  | .ADD_REACTIONS => 64
  | .VIEW_CHANNEL => 1024
  | .SEND_MESSAGES => 2048

/-- The numeric value of `Permissions.ADMINISTRATOR`. -/
def ADMINISTRATOR : Nat := 8

/-- The error taxonomy of src/api/types/errors.ts restricted to the
variants the permission module can throw.  `MISSING p` stands for the
enum entry named by the string `MISSING_` followed by the flag name.
BIGINT_CONVERSION_ERROR is not an errors.ts entry: it stands for the
runtime error the JavaScript engine raises when BigInt is applied to a
value with no numeric conversion, such as the un-awaited Promise in
computeChannelOverwrites. -/
inductive Errors where
  | GUILD_NOT_FOUND
  | MEMBER_NOT_FOUND
  | CHANNEL_NOT_FOUND
  | ROLE_NOT_FOUND
  | MISSING : Permission → Errors
  | BIGINT_CONVERSION_ERROR
deriving DecidableEq

/-- A role of a guild (src/api/structures Role interface): identity,
position and the permission bit set (a numeric string in the source,
embedded by its value). -/
structure Role where
  id : String
  position : Int
  permissions : Nat
deriving DecidableEq

/-- A permission overwrite of a channel (OverwritePayload): identity of a
role or member, allow bits and deny bits. -/
structure Overwrite where
  id : String
  allow : Nat
  deny : Nat
deriving DecidableEq

/-- A channel (src/api/structures Channel interface): the guildID is the
empty string for a DM channel (the source tests `!channel.guildID`). -/
structure Channel where
  id : String
  guildID : String
  permissionOverwrites : List Overwrite
deriving DecidableEq

/-- The per-guild record of a member: the role IDs held in that guild,
excluding the implicit everyone role. -/
structure GuildMembership where
  roles : List String
deriving DecidableEq

/-- A member: its per-guild records, keyed by guild ID. -/
structure Member where
  id : String
  guilds : List (String × GuildMembership)
deriving DecidableEq

/-- A guild: owner identity and the role collection keyed by role ID. -/
structure Guild where
  id : String
  ownerID : String
  roles : List (String × Role)
deriving DecidableEq

/-- The read-only cache snapshot (cacheHandlers): guilds, members and
channels keyed by ID. -/
structure Snapshot where
  guilds : List (String × Guild)
  members : List (String × Member)
  channels : List (String × Channel)
deriving DecidableEq

/-- Keyed lookup in an association list; embeds `Collection.get` and
`cacheHandlers.get`. -/
def alookup {α : Type} (l : List (String × α)) (k : String) : Option α :=
  (l.find? (fun p => p.1 == k)).map (fun p => p.2)

/-- The role aggregation step of computeBasePermissions: OR together the
permission bits of every resolvable candidate role (the recorded roles of
the member for this guild plus the guild ID itself, the implicit everyone
role); candidate IDs with no matching role are dropped. -/
def aggregatedRolePermissions (guild : Guild) (member : Member) (guildID : String) : Nat :=
  ((((alookup member.guilds guildID).map GuildMembership.roles).getD []) ++ [guildID]).foldl
    (fun bits id =>
      match alookup guild.roles id with
      | some role => bits ||| role.permissions
      | none => bits) 0

/-- computeBasePermissions: the permissions a member has in a guild. -/
def computeBasePermissions (s : Snapshot) (memberID guildID : String) : Except Errors Nat :=
  match alookup s.guilds guildID with
  | none => .error Errors.GUILD_NOT_FOUND
  | some guild =>
    if guild.ownerID = memberID then .ok 8
    else
      match alookup s.members memberID with
      | none => .error Errors.MEMBER_NOT_FOUND
      | some member =>
        let permissions := aggregatedRolePermissions guild member guildID
        if permissions &&& ADMINISTRATOR ≠ 0 then .ok 8 else .ok permissions

/-- Lexicographic order on code points; embeds the JavaScript string
comparison a < b (which compares code units; the identities in play are
ASCII digit strings, for which the two agree). -/
def charListLt : List Char → List Char → Bool
  | [], [] => false
  | [], _ :: _ => true
  | _ :: _, [] => false
  | a :: as, b :: bs =>
    if a.toNat < b.toNat then true
    else if b.toNat < a.toNat then false
    else charListLt as bs

/-- The JavaScript comparison `a < b` on strings. -/
def strLt (a b : String) : Bool :=
  charListLt a.data b.data

/-- Embeds the lookup of an overwrite by identity, written
`overwrites.find(o => o.id === id)` in the source. -/
def findOverwrite (ows : List Overwrite) (id : String) : Option Overwrite :=
  ows.find? (fun ow => ow.id == id)

/-- Clear from x every bit set in y: the BigInt expression x & ~y.  On
the non-negative values in play this is x XOR (x AND y); the theorem
clearBits_eq_ldiff below identifies it with the standard bit-clear
operation Nat.ldiff. -/
def clearBits (x y : Nat) : Nat :=
  x ^^^ (x &&& y)

/-- Apply one overwrite: clear its deny bits, then set its allow bits
(`permissions &= ~deny; permissions |= allow`). -/
def applyOverwrite (permissions : Nat) (ow : Overwrite) : Nat :=
  clearBits permissions ow.deny ||| ow.allow

/-- The everyone tier written in computeChannelOverwrites: apply the
overwrite whose identity is the guild ID, when present.  Unreachable in
the program: the function faults at the un-awaited BigInt() call before
this code runs. -/
def everyoneTier (ch : Channel) (permissions : Nat) : Nat :=
  match findOverwrite ch.permissionOverwrites ch.guildID with
  | some ow => applyOverwrite permissions ow
  | none => permissions

/-- The keys produced by `for (const roleID in member.guilds.get(guildID)?.roles)`:
a for-in loop over a JavaScript array yields the array index strings
"0", "1", ..., and yields nothing when the operand is undefined.  Part
of the unreachable role tier of computeChannelOverwrites. -/
def roleIndexKeys (member : Member) (guildID : String) : List String :=
  match alookup member.guilds guildID with
  | some gm => (List.range gm.roles.length).map (fun i => toString i)
  | none => []

/-- The mask accumulation of the role tier, returning (deny, allow): for
each key, when an overwrite with that identity exists, the source runs
`deny &= ~overwrite.deny; allow |= overwrite.allow`.  Part of the
unreachable role tier of computeChannelOverwrites. -/
def roleTierMasks (ows : List Overwrite) (keys : List String) : Nat × Nat :=
  keys.foldl
    (fun ad key =>
      match findOverwrite ows key with
      | some ow => (clearBits ad.1 ow.deny, ad.2 ||| ow.allow)
      | none => ad) (0, 0)

/-- The role tier written in computeChannelOverwrites: accumulate the
masks over the for-in keys, then clear the deny mask and set the allow
mask.  Unreachable in the program. -/
def roleTier (member : Member) (ch : Channel) (permissions : Nat) : Nat :=
  let masks := roleTierMasks ch.permissionOverwrites (roleIndexKeys member ch.guildID)
  clearBits permissions masks.1 ||| masks.2

/-- The member tier written in computeChannelOverwrites: apply the
overwrite whose identity is the member ID, when present.  Unreachable in
the program. -/
def memberTier (memberID : String) (ch : Channel) (permissions : Nat) : Nat :=
  match findOverwrite ch.permissionOverwrites memberID with
  | some ow => applyOverwrite permissions ow
  | none => permissions

/-- computeChannelOverwrites: the permissions a member has in a channel.
The source computes `BigInt(computeBasePermissions(memberID,
channel.guildID))` without awaiting the async call, and BigInt applied
to the returned Promise throws unconditionally, so for a guild channel
the function faults at that line, before the ADMINISTRATOR check, the
member lookup and every overwrite tier; only the channel lookup and the
DM branch are reachable.  The overwrite tiers it would otherwise run are
embedded above as everyoneTier, roleTier and memberTier. -/
def computeChannelOverwrites (s : Snapshot) (memberID channelID : String) : Except Errors Nat :=
  match alookup s.channels channelID with
  | none => .error Errors.CHANNEL_NOT_FOUND
  | some channel =>
    if channel.guildID = "" then .ok 8
    else .error Errors.BIGINT_CONVERSION_ERROR

/-- validatePermissions: does the bitmask carry every listed flag; the
sentinel passes everything. -/
def validatePermissions (permissionBits : Nat) (permissions : List Permission) : Bool :=
  if permissionBits = 8 then true
  else permissions.all (fun p => permissionBits &&& p.bits != 0)

/-- missingPermissions: the listed flags whose bit is absent from the
bitmask, in list order; empty for the sentinel. -/
def missingPermissions (permissionBits : Nat) (permissions : List Permission) : List Permission :=
  if permissionBits = 8 then []
  else permissions.filter (fun p => permissionBits &&& p.bits == 0)

/-- throwOnMissingGuildPermission: compute the base permissions, then
throw the MISSING error named by the first missing flag, if any. -/
def throwOnMissingGuildPermission (s : Snapshot) (memberID guildID : String)
    (permissions : List Permission) : Except Errors Unit :=
  match computeBasePermissions s memberID guildID with
  | .error e => .error e
  | .ok permissionBits =>
    match missingPermissions permissionBits permissions with
    | [] => .ok ()
    | p :: _ => .error (Errors.MISSING p)

/-- The loop of highestRole: keep the first role whose position is not
exceeded by a later one (`memberHighestRole.position < role.position`
replaces the kept role; unresolvable IDs are skipped). -/
def pickHighest (roles : List Role) : Option Role :=
  roles.foldl
    (fun best role =>
      match best with
      | none => some role
      | some b => if b.position < role.position then some role else best) none

/-- highestRole: the highest role of the member in the guild; when the
member record or its entry for this guild is absent, the everyone role;
`none` embeds the undefined values the source can produce. -/
def highestRole (s : Snapshot) (guildID memberID : String) : Except Errors (Option Role) :=
  match alookup s.guilds guildID with
  | none => .error Errors.GUILD_NOT_FOUND
  | some guild =>
    match (alookup s.members memberID).bind (fun m => alookup m.guilds guildID) with
    | none => .ok (alookup guild.roles guildID)
    | some gm => .ok (pickHighest (gm.roles.filterMap (fun id => alookup guild.roles id)))

/-- higherRolePosition: is the first role higher than the second; on equal
positions the source compares the ID strings with the JavaScript `<`,
which is lexicographic. -/
def higherRolePosition (s : Snapshot) (guildID roleID otherRoleID : String) : Except Errors Bool :=
  match alookup s.guilds guildID with
  | none => .error Errors.GUILD_NOT_FOUND
  | some guild =>
    match alookup guild.roles roleID, alookup guild.roles otherRoleID with
    | some role, some otherRole =>
      if role.position = otherRole.position then .ok (strLt role.id otherRole.id)
      else .ok (decide (role.position > otherRole.position))
    | _, _ => .error Errors.ROLE_NOT_FOUND

/-- isHigherPosition: does the member outrank the given role; the guild
owner always does. -/
def isHigherPosition (s : Snapshot) (guildID memberID compareRoleID : String) : Except Errors Bool :=
  match alookup s.guilds guildID with
  | none => .error Errors.GUILD_NOT_FOUND
  | some guild =>
    if guild.ownerID = memberID then .ok true
    else
      match highestRole s guildID memberID with
      | .error e => .error e
      | .ok mhr =>
        match mhr, alookup guild.roles compareRoleID with
        | some memberHighestRole, some compareRole =>
          if memberHighestRole.position = compareRole.position then
            .ok (strLt memberHighestRole.id compareRole.id)
          else .ok (decide (memberHighestRole.position > compareRole.position))
        | _, _ => .error Errors.ROLE_NOT_FOUND

/-- The numeric value denoted by a platform-issued identity string
(identities are decimal numerals); used to read the claims that speak of
the smaller identity value. -/
def idValue (id : String) : Nat :=
  id.data.foldl (fun n c => n * 10 + (c.toNat - 48)) 0

/-- Modelled from the spec: the corrected role tier of the overwrite
resolver, which OR-accumulates a combined deny mask and a combined allow
mask over every overwrite whose identity is one of the member role IDs;
stated for comparison with `roleTierMasks`, the accumulation the source
actually performs. -/
def specRoleTierMasks (ows : List Overwrite) (roleIDs : List String) : Nat × Nat :=
  roleIDs.foldl
    (fun ad rid =>
      match findOverwrite ows rid with
      | some ow => (ad.1 ||| ow.deny, ad.2 ||| ow.allow)
      | none => ad) (0, 0)

/-- Modelled from the spec: the ranking order as the claims word it, with
larger position outranking and equal positions broken in favor of the
smaller identity value; stated for comparison with the comparisons the
source actually performs. -/
def rankOutranks (a b : Role) : Bool :=
  a.position > b.position || (a.position == b.position && idValue a.id < idValue b.id)

/-- Modelled from the spec: the highest-role selection as the claims word
it, the maximum of the resolvable roles under the ranking order; stated
for comparison with `pickHighest`. -/
def claimedHighest (roles : List Role) : Option Role :=
  roles.foldl
    (fun best role =>
      match best with
      | none => some role
      | some b => if rankOutranks role b then some role else best) none

/-- Modelled from the spec: memberOutranks as claim C8 words it, the
owner always outranking and otherwise the highest role under the ranking
order being compared against the compare role by that same order. -/
def claimedMemberOutranks (s : Snapshot) (guildID memberID compareRoleID : String) :
    Option Bool :=
  match alookup s.guilds guildID with
  | none => none
  | some guild =>
    if guild.ownerID = memberID then some true
    else
      let memberRoleIDs :=
        (((alookup s.members memberID).bind (fun m => alookup m.guilds guildID)).map
          GuildMembership.roles).getD []
      match claimedHighest (memberRoleIDs.filterMap (fun id => alookup guild.roles id)),
          alookup guild.roles compareRoleID with
      | some mhr, some cmp => some (rankOutranks mhr cmp)
      | _, _ => none

/-! Concrete snapshots used for the counterexamples, the failing inputs
and the witnesses. -/

/-- Guild G: everyone role grants VIEW_CHANNEL and SEND_MESSAGES (3072),
role R1 grants nothing. -/
def g1 : Guild := ⟨"G", "OWN", [("G", ⟨"G", 0, 3072⟩), ("R1", ⟨"R1", 1, 0⟩)]⟩

/-- Member M holding role R1 in guild G. -/
def m1 : Member := ⟨"M", [("G", ⟨["R1"]⟩)]⟩

/-- A channel of guild G with a role overwrite for R1 denying
SEND_MESSAGES and a stray overwrite whose identity is the string "0",
which is no role of the member but is an array index string. -/
def ch1 : Channel := ⟨"C", "G", [⟨"R1", 0, 2048⟩, ⟨"0", 4, 0⟩]⟩

/-- The snapshot for the role-tier divergence. -/
def s1 : Snapshot := ⟨[("G", g1)], [("M", m1)], [("C", ch1)]⟩

/-- Guild G of the end-to-end scenario: everyone role grants VIEW_CHANNEL
(1024), role R1 grants SEND_MESSAGES (2048). -/
def g2 : Guild := ⟨"G", "OWN", [("G", ⟨"G", 0, 1024⟩), ("R1", ⟨"R1", 1, 2048⟩)]⟩

/-- Member M holding role R1 in guild G. -/
def m2 : Member := ⟨"M", [("G", ⟨["R1"]⟩)]⟩

/-- Channel C of the end-to-end scenario: an everyone overwrite denying
SEND_MESSAGES and a role overwrite for R1 allowing SEND_MESSAGES. -/
def ch2 : Channel := ⟨"C", "G", [⟨"G", 0, 2048⟩, ⟨"R1", 2048, 0⟩]⟩

/-- The snapshot of the end-to-end scenario of the spec. -/
def s2 : Snapshot := ⟨[("G", g2)], [("M", m2)], [("C", ch2)]⟩

/-- Channel of guild G carrying only a member-specific overwrite for M
that denies SEND_MESSAGES, next to a role overwrite for R1 allowing it. -/
def ch3 : Channel := ⟨"C3", "G", [⟨"R1", 2048, 0⟩, ⟨"M", 0, 2048⟩]⟩

/-- Snapshot for the member-tier claim: guild g1 (everyone grants 3072),
member M with role R1, channel ch3. -/
def s3 : Snapshot := ⟨[("G", g1)], [("M", m1)], [("C3", ch3)]⟩

/-- A snapshot whose guild G is owned by OWN while the member store is
empty. -/
def s6 : Snapshot := ⟨[("G", g2)], [], []⟩

/-- Guild with two roles of equal position whose identities are the
numerals 9 and 10. -/
def g7 : Guild := ⟨"G", "OWN", [("G", ⟨"G", 0, 0⟩), ("9", ⟨"9", 1, 0⟩), ("10", ⟨"10", 1, 0⟩)]⟩

/-- Snapshot around guild g7. -/
def s7 : Snapshot := ⟨[("G", g7)], [], []⟩

/-- Guild with the equal-position roles of identities 100 and 200. -/
def g7w : Guild := ⟨"G", "OWN", [("100", ⟨"100", 1, 0⟩), ("200", ⟨"200", 1, 0⟩)]⟩

/-- Snapshot around guild g7w. -/
def s7w : Snapshot := ⟨[("G", g7w)], [], []⟩

/-- Guild with four roles: the everyone role, the equal-position roles of
identities 2 and 1 held by the member, and the compare role of identity
15, all at position 5 apart from the everyone role. -/
def g8 : Guild :=
  ⟨"G", "OWN",
    [("G", ⟨"G", 0, 0⟩), ("2", ⟨"2", 5, 0⟩), ("1", ⟨"1", 5, 0⟩), ("15", ⟨"15", 5, 0⟩)]⟩

/-- Member M holding the roles 2 and 1, in that order. -/
def m8 : Member := ⟨"M", [("G", ⟨["2", "1"]⟩)]⟩

/-- Snapshot for the ranking tie-break divergence. -/
def s8 : Snapshot := ⟨[("G", g8)], [("M", m8)], []⟩

/-- Guild whose everyone role grants only VIEW_CHANNEL (1024). -/
def g9 : Guild := ⟨"G", "OWN", [("G", ⟨"G", 0, 1024⟩)]⟩

/-- Member M with no extra roles in guild G. -/
def m9 : Member := ⟨"M", [("G", ⟨[]⟩)]⟩

/-- Snapshot where the base permissions of M in G are exactly 1024. -/
def s9 : Snapshot := ⟨[("G", g9)], [("M", m9)], []⟩

/-- The empty snapshot. -/
def sEmpty : Snapshot := ⟨[], [], []⟩

/-- A DM channel: empty guildID and no overwrites. -/
def chDM : Channel := ⟨"D", "", []⟩

/-- A snapshot holding only the DM channel. -/
def sDM : Snapshot := ⟨[], [], [("D", chDM)]⟩

end Engine

namespace Engine

/-! Supporting lemmas. -/

theorem clearBits_eq_ldiff (x y : Nat) : clearBits x y = Nat.ldiff x y := by
  apply Nat.eq_of_testBit_eq
  intro i
  simp only [clearBits, Nat.testBit_xor, Nat.testBit_and, Nat.testBit_ldiff]
  cases hx : x.testBit i <;> cases hy : y.testBit i <;> rfl

theorem sentinel_iff_of_inv {n : Nat} (h : n = 8 ∨ n &&& ADMINISTRATOR = 0) :
    n = 8 ↔ n &&& ADMINISTRATOR ≠ 0 := by
  rcases h with rfl | h
  · exact ⟨fun _ => by decide, fun _ => rfl⟩
  · constructor
    · rintro rfl
      exact absurd h (by decide)
    · intro hne
      exact absurd h hne

/-! Equation lemmas for the two resolvers, one per control-flow branch of
the source. -/

theorem computeBasePermissions_eq_noguild {s : Snapshot} {memberID guildID : String}
    (hg : alookup s.guilds guildID = none) :
    computeBasePermissions s memberID guildID = .error Errors.GUILD_NOT_FOUND := by
  simp [computeBasePermissions, hg]

theorem computeBasePermissions_eq_owner {s : Snapshot} {memberID guildID : String} {guild : Guild}
    (hg : alookup s.guilds guildID = some guild) (ho : guild.ownerID = memberID) :
    computeBasePermissions s memberID guildID = .ok 8 := by
  simp [computeBasePermissions, hg, ho]

theorem computeBasePermissions_eq_nomember {s : Snapshot} {memberID guildID : String}
    {guild : Guild}
    (hg : alookup s.guilds guildID = some guild) (ho : guild.ownerID ≠ memberID)
    (hm : alookup s.members memberID = none) :
    computeBasePermissions s memberID guildID = .error Errors.MEMBER_NOT_FOUND := by
  simp [computeBasePermissions, hg, ho, hm]

theorem computeBasePermissions_eq_admin {s : Snapshot} {memberID guildID : String} {guild : Guild}
    {member : Member}
    (hg : alookup s.guilds guildID = some guild) (ho : guild.ownerID ≠ memberID)
    (hm : alookup s.members memberID = some member)
    (hadm : aggregatedRolePermissions guild member guildID &&& ADMINISTRATOR ≠ 0) :
    computeBasePermissions s memberID guildID = .ok 8 := by
  simp [computeBasePermissions, hg, ho, hm, hadm]

theorem computeBasePermissions_eq_noadmin {s : Snapshot} {memberID guildID : String}
    {guild : Guild} {member : Member}
    (hg : alookup s.guilds guildID = some guild) (ho : guild.ownerID ≠ memberID)
    (hm : alookup s.members memberID = some member)
    (hadm : aggregatedRolePermissions guild member guildID &&& ADMINISTRATOR = 0) :
    computeBasePermissions s memberID guildID =
      .ok (aggregatedRolePermissions guild member guildID) := by
  simp [computeBasePermissions, hg, ho, hm, hadm]

theorem computeChannelOverwrites_eq_guildchannel {s : Snapshot} {memberID channelID : String}
    {ch : Channel}
    (hch : alookup s.channels channelID = some ch) (hdm : ch.guildID ≠ "") :
    computeChannelOverwrites s memberID channelID = .error Errors.BIGINT_CONVERSION_ERROR := by
  simp [computeChannelOverwrites, hch, hdm]

theorem computeBasePermissions_inv (s : Snapshot) (memberID guildID : String) (n : Nat)
    (hok : computeBasePermissions s memberID guildID = .ok n) :
    n = 8 ∨ n &&& ADMINISTRATOR = 0 := by
  cases hg : alookup s.guilds guildID with
  | none => rw [computeBasePermissions_eq_noguild hg] at hok; exact Except.noConfusion hok
  | some guild =>
    by_cases ho : guild.ownerID = memberID
    · rw [computeBasePermissions_eq_owner hg ho] at hok
      injection hok with h
      exact Or.inl h.symm
    · cases hm : alookup s.members memberID with
      | none =>
        rw [computeBasePermissions_eq_nomember hg ho hm] at hok
        exact Except.noConfusion hok
      | some member =>
        by_cases hadm : aggregatedRolePermissions guild member guildID &&& ADMINISTRATOR ≠ 0
        · rw [computeBasePermissions_eq_admin hg ho hm hadm] at hok
          injection hok with h
          exact Or.inl h.symm
        · push_neg at hadm
          rw [computeBasePermissions_eq_noadmin hg ho hm hadm] at hok
          injection hok with h
          exact Or.inr (h ▸ hadm)

theorem computeChannelOverwrites_ok_eq (s : Snapshot) (memberID channelID : String) (m : Nat)
    (hok : computeChannelOverwrites s memberID channelID = .ok m) : m = 8 := by
  cases hch : alookup s.channels channelID with
  | none =>
    rw [show computeChannelOverwrites s memberID channelID = .error Errors.CHANNEL_NOT_FOUND
        from by simp [computeChannelOverwrites, hch]] at hok
    exact Except.noConfusion hok
  | some ch =>
    by_cases hdm : ch.guildID = ""
    · rw [show computeChannelOverwrites s memberID channelID = .ok 8
          from by simp [computeChannelOverwrites, hch, hdm]] at hok
      injection hok with h
      exact h.symm
    · rw [computeChannelOverwrites_eq_guildchannel hch hdm] at hok
      exact Except.noConfusion hok

/-- Claim C1, evaluated on its failing input: the role tier of
computeChannelOverwrites should OR-accumulate the deny and allow bits of
every overwrite matching one of the member role IDs, here yielding the
masks (2048, 0) and removing SEND_MESSAGES.  The code never reaches any
overwrite tier: it faults converting the un-awaited Promise of
computeBasePermissions to BigInt; and the role tier as written, embedded
by roleTierMasks, is doubly wrong even in isolation, bit-clearing the
deny accumulator from zero and matching overwrites against the for-in
index string "0", which yields the masks (0, 4) on this input. -/
theorem C1_role_tier_divergence :
    computeChannelOverwrites s1 "M" "C" = .error Errors.BIGINT_CONVERSION_ERROR
  ∧ roleTierMasks ch1.permissionOverwrites (roleIndexKeys m1 "G") = (0, 4)
  ∧ specRoleTierMasks ch1.permissionOverwrites ["R1"] = (2048, 0) := by decide

/-- Claim C2, evaluated on the end-to-end snapshot of the spec: the claim
expects a capability set containing VIEW_CHANNEL and SEND_MESSAGES, but
the code throws converting the un-awaited Promise of
computeBasePermissions to BigInt and returns no capability set at all
for this guild channel. -/
theorem C2_end_to_end_divergence :
    computeChannelOverwrites s2 "M" "C" = .error Errors.BIGINT_CONVERSION_ERROR
  ∧ ∀ m : Nat, computeChannelOverwrites s2 "M" "C" ≠ .ok m := by
  refine ⟨by decide, fun m hm => ?_⟩
  rw [show computeChannelOverwrites s2 "M" "C" = .error Errors.BIGINT_CONVERSION_ERROR
      from by decide] at hm
  exact Except.noConfusion hm

/-- Claim C3, evaluated on a failing input: the channel ch3 carries a
member-specific overwrite for M denying SEND_MESSAGES, and the claim
says that overwrite is applied last, so that the flag is absent from the
result; the code never applies any overwrite tier, faulting for every
guild channel at the un-awaited BigInt(computeBasePermissions(...))
before the member lookup, and produces no result. -/
theorem C3_member_overwrite_dead :
    findOverwrite ch3.permissionOverwrites "M" = some ⟨"M", 0, 2048⟩
  ∧ computeChannelOverwrites s3 "M" "C3" = .error Errors.BIGINT_CONVERSION_ERROR := by decide

/-- Claim C4: for a present non-owner member the base resolver returns
the sentinel 8 exactly when the OR-aggregate over the resolvable
candidate roles has the ADMINISTRATOR bit, and otherwise it returns that
literal aggregate; the substitution happens once, after aggregation. -/
theorem C4_base_aggregation (s : Snapshot) (memberID guildID : String) (guild : Guild)
    (member : Member)
    (hg : alookup s.guilds guildID = some guild)
    (ho : guild.ownerID ≠ memberID)
    (hm : alookup s.members memberID = some member) :
    computeBasePermissions s memberID guildID =
      .ok (if aggregatedRolePermissions guild member guildID &&& ADMINISTRATOR ≠ 0 then 8
           else aggregatedRolePermissions guild member guildID)
  ∧ (computeBasePermissions s memberID guildID = .ok 8 ↔
      aggregatedRolePermissions guild member guildID &&& ADMINISTRATOR ≠ 0) := by
  constructor
  · by_cases hadm : aggregatedRolePermissions guild member guildID &&& ADMINISTRATOR ≠ 0
    · rw [computeBasePermissions_eq_admin hg ho hm hadm, if_pos hadm]
    · push_neg at hadm
      rw [computeBasePermissions_eq_noadmin hg ho hm hadm, if_neg (by simp [hadm])]
  · by_cases hadm : aggregatedRolePermissions guild member guildID &&& ADMINISTRATOR ≠ 0
    · rw [computeBasePermissions_eq_admin hg ho hm hadm]
      simp [hadm]
    · push_neg at hadm
      rw [computeBasePermissions_eq_noadmin hg ho hm hadm]
      constructor
      · intro h8
        injection h8 with h8
        exact absurd (h8 ▸ hadm) (by decide)
      · intro hne
        exact absurd hadm hne

/-- Witness for C4 on the end-to-end snapshot: the aggregate 3072 has no
ADMINISTRATOR bit and is returned literally. -/
theorem C4_base_aggregation_witness :
    computeBasePermissions s2 "M" "G" = .ok 3072 := by
  have h := (C4_base_aggregation s2 "M" "G" g2 m2 rfl (by decide) rfl).1
  exact h.trans (by decide)

/-- Claim C5: the base resolver returns the sentinel for the guild owner
immediately, whatever the member store and the role assignments hold. -/
theorem C5_owner_sentinel (s : Snapshot) (memberID guildID : String) (guild : Guild)
    (hg : alookup s.guilds guildID = some guild) (ho : guild.ownerID = memberID) :
    computeBasePermissions s memberID guildID = .ok 8 :=
  computeBasePermissions_eq_owner hg ho

/-- Witness for C5: the owner OWN of guild G is not even present in the
member store of s6, and the call still returns the sentinel. -/
theorem C5_owner_sentinel_witness :
    computeBasePermissions s6 "OWN" "G" = .ok 8 :=
  C5_owner_sentinel s6 "OWN" "G" g2 rfl rfl

/-- Counterexample to claim C6: in snapshot s6 the guild G is present and
the member OWN is absent from the member store, yet the call returns the
sentinel instead of failing with MEMBER_NOT_FOUND, because OWN is the
guild owner and the owner check precedes the member lookup. -/
theorem C6_owner_absent_counterexample :
    alookup s6.members "OWN" = none
  ∧ alookup s6.guilds "G" = some g2
  ∧ computeBasePermissions s6 "OWN" "G" = .ok 8
  ∧ computeBasePermissions s6 "OWN" "G" ≠ .error Errors.MEMBER_NOT_FOUND := by decide

/-- Claim C6 as amended: an absent guild fails with GUILD_NOT_FOUND, and
an absent member fails with MEMBER_NOT_FOUND provided the member ID is
not the guild owner ID (an absent owner yields the sentinel instead). -/
theorem C6_not_found_amended (s : Snapshot) (memberID guildID : String) :
    (alookup s.guilds guildID = none →
      computeBasePermissions s memberID guildID = .error Errors.GUILD_NOT_FOUND)
  ∧ (∀ guild, alookup s.guilds guildID = some guild → guild.ownerID ≠ memberID →
      alookup s.members memberID = none →
      computeBasePermissions s memberID guildID = .error Errors.MEMBER_NOT_FOUND) :=
  ⟨fun hg => computeBasePermissions_eq_noguild hg,
   fun _ hg ho hm => computeBasePermissions_eq_nomember hg ho hm⟩

/-- Witness for the amended C6: both failure branches on concrete
snapshots. -/
theorem C6_not_found_amended_witness :
    computeBasePermissions sEmpty "M" "G" = .error Errors.GUILD_NOT_FOUND
  ∧ computeBasePermissions s6 "M" "G" = .error Errors.MEMBER_NOT_FOUND :=
  ⟨(C6_not_found_amended sEmpty "M" "G").1 rfl,
   (C6_not_found_amended s6 "M" "G").2 g2 rfl (by decide) rfl⟩

/-- Counterexample to claim C7: the roles with identities 9 and 10 have
equal positions and the identity value 9 is smaller than 10, so the claim
predicts that 9 outranks 10; the code compares the identity strings
lexicographically and returns false. -/
theorem C7_numeric_tiebreak_counterexample :
    higherRolePosition s7 "G" "9" "10" = .ok false
  ∧ (alookup g7.roles "9").map Role.position = some 1
  ∧ (alookup g7.roles "10").map Role.position = some 1
  ∧ idValue "9" < idValue "10" := by decide

/-- Claim C7 as amended: higherRolePosition returns true exactly when the
first position is larger, or on equal positions when the first identity
string is smaller in the lexicographic string order, which is what the
JavaScript comparison performs. -/
theorem C7_lexicographic_amended (s : Snapshot) (guildID roleID otherRoleID : String)
    (guild : Guild) (a b : Role)
    (hg : alookup s.guilds guildID = some guild)
    (ha : alookup guild.roles roleID = some a)
    (hb : alookup guild.roles otherRoleID = some b) :
    higherRolePosition s guildID roleID otherRoleID =
      .ok (if a.position = b.position then strLt a.id b.id
           else decide (a.position > b.position)) := by
  by_cases hp : a.position = b.position
  · simp [higherRolePosition, hg, ha, hb, hp]
  · simp [higherRolePosition, hg, ha, hb, hp]

/-- Witness for the amended C7, covering the particular instance of the
claim: equal positions with identities 100 and 200, where 100 outranks. -/
theorem C7_lexicographic_amended_witness :
    higherRolePosition s7w "G" "100" "200" = .ok true := by
  have h := C7_lexicographic_amended s7w "G" "100" "200" g7w ⟨"100", 1, 0⟩ ⟨"200", 1, 0⟩
    rfl rfl rfl
  exact h.trans (by decide)

/-- Counterexample to claim C8: in snapshot s8 the member holds the
equal-position roles 2 and 1; the ranking order of the claim selects role
1 as highest (smaller identity value) and predicts that the member
outranks role 15, but the code keeps the first-encountered role 2 and
returns false. -/
theorem C8_tiebreak_counterexample :
    isHigherPosition s8 "G" "M" "15" = .ok false
  ∧ claimedMemberOutranks s8 "G" "M" "15" = some true := by decide

/-- Claim C8 as amended: the owner always outranks; otherwise the highest
role is the first role of the member attaining the maximum position,
with no identity tie-break in its selection, and the final comparison
breaks equal positions by the lexicographically smaller identity
string. -/
theorem C8_amended (s : Snapshot) (guildID memberID compareRoleID : String) (guild : Guild)
    (hg : alookup s.guilds guildID = some guild) :
    (guild.ownerID = memberID →
      isHigherPosition s guildID memberID compareRoleID = .ok true)
  ∧ (∀ mhr cmp, guild.ownerID ≠ memberID →
      highestRole s guildID memberID = .ok (some mhr) →
      alookup guild.roles compareRoleID = some cmp →
      isHigherPosition s guildID memberID compareRoleID =
        .ok (if mhr.position = cmp.position then strLt mhr.id cmp.id
             else decide (mhr.position > cmp.position)))
  ∧ (∀ member gm, alookup s.members memberID = some member →
      alookup member.guilds guildID = some gm →
      highestRole s guildID memberID =
        .ok (pickHighest (gm.roles.filterMap (fun id => alookup guild.roles id)))) := by
  refine ⟨fun ho => ?_, fun mhr cmp ho hhr hc => ?_, fun member gm hm hgm => ?_⟩
  · simp [isHigherPosition, hg, ho]
  · by_cases hp : mhr.position = cmp.position
    · simp [isHigherPosition, hg, ho, hhr, hc, hp]
    · simp [isHigherPosition, hg, ho, hhr, hc, hp]
  · simp [highestRole, hg, hm, hgm]

/-- Witness for the amended C8 on snapshot s8: the first maximum role is
role 2 and the string comparison of 2 against 15 yields false. -/
theorem C8_amended_witness :
    isHigherPosition s8 "G" "M" "15" = .ok false := by
  have h := (C8_amended s8 "G" "M" "15" g8 rfl).2.1 ⟨"2", 5, 0⟩ ⟨"15", 5, 0⟩
    (by decide) (by decide) rfl
  exact h.trans (by decide)

/-- Claim C9: for a non-sentinel bitmask, missingPermissions returns
exactly the required flags whose bit is absent, in the requested order;
the sentinel yields the empty list; and throwOnMissingGuildPermission
throws the MISSING error of the first missing flag, or nothing when none
is missing. -/
theorem C9_missing_first (bits : Nat) (required : List Permission)
    (s : Snapshot) (memberID guildID : String) :
    (bits ≠ 8 → missingPermissions bits required
        = required.filter (fun p => bits &&& p.bits == 0))
  ∧ missingPermissions 8 required = []
  ∧ (computeBasePermissions s memberID guildID = .ok bits →
      (missingPermissions bits required = [] →
        throwOnMissingGuildPermission s memberID guildID required = .ok ())
      ∧ ∀ p rest, missingPermissions bits required = p :: rest →
        throwOnMissingGuildPermission s memberID guildID required
          = .error (Errors.MISSING p)) := by
  refine ⟨fun hne => ?_, ?_, fun hbase => ⟨fun hnil => ?_, fun p rest hcons => ?_⟩⟩
  · simp [missingPermissions, hne]
  · simp [missingPermissions]
  · simp [throwOnMissingGuildPermission, hbase, hnil]
  · simp [throwOnMissingGuildPermission, hbase, hcons]

/-- Witness for C9 on snapshot s9, whose base bits are 1024: the missing
list for a SEND_MESSAGES requirement is the singleton SEND_MESSAGES and
the guild gate throws MISSING_SEND_MESSAGES. -/
theorem C9_missing_first_witness :
    missingPermissions 1024 [Permission.SEND_MESSAGES] = [Permission.SEND_MESSAGES]
  ∧ throwOnMissingGuildPermission s9 "M" "G" [Permission.SEND_MESSAGES]
      = .error (Errors.MISSING Permission.SEND_MESSAGES) := by
  constructor
  · exact ((C9_missing_first 1024 [Permission.SEND_MESSAGES] s9 "M" "G").1
      (by decide)).trans (by decide)
  · exact ((C9_missing_first 1024 [Permission.SEND_MESSAGES] s9 "M" "G").2.2
      (by decide)).2 Permission.SEND_MESSAGES [] (by decide)

/-- Claim C10: every value the base resolver returns, and under
admin-free overwrite masks every value the overwrite resolver returns, is
either the sentinel 8 or has the ADMINISTRATOR bit clear; consequently
the sentinel test asking whether the value is 8 (the string test against
"8" in the source) coincides with the test whether the ADMINISTRATOR bit
is set, on every value the engine produces.  For the overwrite resolver
the only value the program can return is the DM sentinel 8 itself, since
every guild-channel run faults at the un-awaited BigInt() call. -/
theorem C10_sentinel_invariant (s : Snapshot) (memberID guildID channelID : String)
    (n m : Nat) :
    (computeBasePermissions s memberID guildID = .ok n →
      (n = 8 ∨ n &&& ADMINISTRATOR = 0) ∧ (n = 8 ↔ n &&& ADMINISTRATOR ≠ 0))
  ∧ (∀ ch, alookup s.channels channelID = some ch →
      (∀ ow ∈ ch.permissionOverwrites,
        ow.allow &&& ADMINISTRATOR = 0 ∧ ow.deny &&& ADMINISTRATOR = 0) →
      computeChannelOverwrites s memberID channelID = .ok m →
      (m = 8 ∨ m &&& ADMINISTRATOR = 0) ∧ (m = 8 ↔ m &&& ADMINISTRATOR ≠ 0)) := by
  constructor
  · intro hok
    have hinv := computeBasePermissions_inv s memberID guildID n hok
    exact ⟨hinv, sentinel_iff_of_inv hinv⟩
  · intro ch hch hows hok
    have hinv : m = 8 ∨ m &&& ADMINISTRATOR = 0 :=
      Or.inl (computeChannelOverwrites_ok_eq s memberID channelID m hok)
    exact ⟨hinv, sentinel_iff_of_inv hinv⟩

/-- Witness for C10: the base value 3072 of the end-to-end snapshot and
the DM channel value 8 both satisfy the invariant and the agreement of
the two sentinel tests. -/
theorem C10_sentinel_invariant_witness :
    ((3072 = 8 ∨ 3072 &&& ADMINISTRATOR = 0) ∧ (3072 = 8 ↔ 3072 &&& ADMINISTRATOR ≠ 0))
  ∧ ((8 = 8 ∨ 8 &&& ADMINISTRATOR = 0) ∧ (8 = 8 ↔ 8 &&& ADMINISTRATOR ≠ 0)) :=
  ⟨(C10_sentinel_invariant s2 "M" "G" "C" 3072 8).1 (by decide),
   (C10_sentinel_invariant sDM "M" "G" "D" 3072 8).2 chDM rfl (by decide) (by decide)⟩

end Engine
